import Mathlib

/-!
Shallow embedding of the globus-sdk-python core pieces referenced by the
specification: `ClientCredentialsAuthorizer._get_token_response`
(src/globus_sdk/authorizers/client_credentials.py), and
`TransferClient.__init__`, `TransferClient.endpoint_search`,
`TransferClient.task_wait` (src/globus_sdk/transfer/client.py).

Effectful Python code is embedded as pure functions over explicit oracles:
the confidential auth client becomes a function from the requested scope
string to a token response, and the sequence of `get_task` results becomes a
function from the index of the status request to the status string returned.
Observable effects (HTTP requests issued, sleeps performed) are reified in
the return value as explicit lists/traces so that claims about "number of
requests" and "ordering of checks and sleeps" are statable.
-/

namespace GlobusSDK

/-! ## ClientCredentialsAuthorizer (authorizers/client_credentials.py) -/

/-- A token response from the auth service, as seen by
`ClientCredentialsAuthorizer._get_token_response`.  Only the fields the
embedded code inspects are modelled: `other_tokens` is the (possibly empty)
list of access tokens for resource servers other than the primary one;
Python's truthiness test `if res.other_tokens:` is nonemptiness of this
list. -/
structure OAuthTokenResponse where
  access_token : String
  expires_at_seconds : Int
  other_tokens : List String
deriving DecidableEq

/-- State of a `ClientCredentialsAuthorizer`: the confidential client is the
oracle answering `oauth2_client_credentials_tokens(requested_scopes=...)`,
and `scopes` is the space-separated scope string stored at construction. -/
structure ClientCredentialsAuthorizer where
  confidential_client : String → OAuthTokenResponse
  scopes : String

/-- `ClientCredentialsAuthorizer._get_token_response` (lines 68-81).  The
second component is the list of grant requests issued, in order, each
recorded by its `requested_scopes` argument. -/
def ClientCredentialsAuthorizer.get_token_response
    (auth : ClientCredentialsAuthorizer) :
    Except String OAuthTokenResponse × List String :=
  let res := auth.confidential_client auth.scopes
  if res.other_tokens ≠ [] then
    (Except.error ("ClientCredentialsAuthorizer created with scopes "
        ++ auth.scopes
        ++ " got back multiple Access Tokens. Make sure the set of scopes are only for one resource server."),
     [auth.scopes])
  else
    (Except.ok res, [auth.scopes])

/-! ## TransferClient.__init__ (transfer/client.py lines 62-72) -/

/-- The authorizer argument of `TransferClient`; variants are the authorizer
types the client accepts (`allowed_authorizer_types`). -/
inductive GlobusAuthorizer
  | accessTokenAuthorizer (access_token : String)
  | refreshTokenAuthorizer (refresh_token : String)
deriving DecidableEq

/-- `TransferClient.__init__`: `config_transfer_token` is the value the
deprecated config lookup `config.get_transfer_token(...)` returns (`none`
when unset).  The result is the `authorizer` value passed on to
`BaseClient.__init__`. -/
def transfer_client_init (authorizer : Option GlobusAuthorizer)
    (config_transfer_token : Option String) : Option GlobusAuthorizer :=
  let access_token := config_transfer_token
  match authorizer, access_token with
  | none, some tok => some (GlobusAuthorizer.accessTokenAuthorizer tok)
  | a, _ => a

/-! ## endpoint_search (transfer/client.py lines 203-260) and the
`PaginatedResource` constructor it invokes -/

inductive TransferError
  | paginationOverrun
deriving DecidableEq

/-- The paging state a successfully constructed `PaginatedResource` stores
(the fields relevant to construction-time validation). -/
structure PaginatedResource where
  num_results : Option Int
  max_results_per_call : Int
  max_total_results : Option Int
deriving DecidableEq

/-- Modelled from the spec: the constructor of `PaginatedResource` lives in
`globus_sdk/transfer/paging.py`, which is not among the sources; only its
caller `endpoint_search` is.  Spec section 4.3: "Validation at construction:
if `num_results` is specified and `max_total_results` is specified and
`num_results > max_total_results`, fail immediately with a
pagination-overrun error — this is a client-side programming error caught
before any request is sent."  The second component is the list of HTTP
requests issued during construction, empty per the spec. -/
def PaginatedResource.construct (num_results : Option Int)
    (max_results_per_call : Int) (max_total_results : Option Int) :
    Except TransferError PaginatedResource × List String :=
  match num_results, max_total_results with
  | some n, some m =>
    if n > m then (Except.error TransferError.paginationOverrun, [])
    else (Except.ok ⟨some n, max_results_per_call, some m⟩, [])
  | _, _ =>
    (Except.ok ⟨num_results, max_results_per_call, max_total_results⟩, [])

/-- `TransferClient.endpoint_search` (lines 257-260): constructs the
paginated sequence with `max_results_per_call=100` and
`max_total_results=1000`; `num_results` defaults to 25. -/
def endpoint_search (num_results : Option Int := some 25) :
    Except TransferError PaginatedResource × List String :=
  PaginatedResource.construct num_results 100 (some 1000)

/-! ## task_wait (transfer/client.py lines 1028-1126) -/

/-- One observable event of a `task_wait` run, in program order:
`statusCheck s` is a `get_task` request whose response carried status `s`;
`timeoutCheck w` is an evaluation of the `timed_out` helper at accumulated
waited time `w`; `sleep d` is a `time.sleep(d)` call. -/
inductive TaskWaitEvent
  | statusCheck (status : String)
  | timeoutCheck (waited_time : Int)
  | sleep (duration : Int)
deriving DecidableEq

/-- The two `ValueError`s `task_wait` raises during argument validation. -/
inductive TaskWaitError
  | timeoutTooSmall
  | pollingIntervalTooSmall
deriving DecidableEq

/-- The `timed_out` helper defined inside `task_wait` (lines 1098-1099):
strict comparison of accumulated waited time against the timeout. -/
def timed_out (timeout waited_time : Int) : Bool :=
  waited_time > timeout

/-- The `while True` loop of `task_wait` (lines 1104-1125).  `statuses idx`
is the status string the `(idx+1)`-th `get_task` call reports.  `fuel` bounds
the recursion; `task_wait` supplies enough fuel that the `none` case is never
reached when `interval ≥ 1` (see `task_wait_go_isSome`).  Returns the boolean
result together with the ordered event trace. -/
def task_wait_go (statuses : Nat → String) (timeout interval : Int) :
    Nat → Int → Nat → Option (Bool × List TaskWaitEvent)
  | 0, _, _ => none
  | fuel + 1, waited_time, idx =>
    let status := statuses idx
    if status ≠ "ACTIVE" then
      some (true, [TaskWaitEvent.statusCheck status])
    else
      let waited_time' := waited_time + interval
      if timed_out timeout waited_time' then
        some (false, [TaskWaitEvent.statusCheck status,
                      TaskWaitEvent.timeoutCheck waited_time'])
      else
        match task_wait_go statuses timeout interval fuel waited_time' (idx + 1) with
        | none => none
        | some (r, evs) =>
          some (r, TaskWaitEvent.statusCheck status
                     :: TaskWaitEvent.timeoutCheck waited_time'
                     :: TaskWaitEvent.sleep interval :: evs)

/-- `TransferClient.task_wait` (lines 1028-1126): validates the bounds,
clamps the polling interval to the timeout, then runs the polling loop.
The fallback `(false, [])` on fuel exhaustion is unreachable for the fuel
supplied here (proved in `task_wait_go_isSome`). -/
def task_wait (statuses : Nat → String) (timeout : Int := 10)
    (polling_interval : Int := 10) :
    Except TaskWaitError (Bool × List TaskWaitEvent) :=
  if timeout < 1 then
    Except.error TaskWaitError.timeoutTooSmall
  else if polling_interval < 1 then
    Except.error TaskWaitError.pollingIntervalTooSmall
  else
    let polling_interval' := min timeout polling_interval
    match task_wait_go statuses timeout polling_interval' (timeout.toNat + 1) 0 0 with
    | some out => Except.ok out
    | none => Except.ok (false, [])

/-- Number of `get_task` status requests recorded in a trace. -/
def countStatusChecks : List TaskWaitEvent → Nat
  | [] => 0
  | TaskWaitEvent.statusCheck _ :: rest => countStatusChecks rest + 1
  | _ :: rest => countStatusChecks rest

/-- Durations of the `time.sleep` calls recorded in a trace, in order. -/
def sleepDurations : List TaskWaitEvent → List Int
  | [] => []
  | TaskWaitEvent.sleep d :: rest => d :: sleepDurations rest
  | _ :: rest => sleepDurations rest

/-- Accumulated waited times at which the `timed_out` helper was evaluated,
in order. -/
def timeoutCheckValues : List TaskWaitEvent → List Int
  | [] => []
  | TaskWaitEvent.timeoutCheck w :: rest => w :: timeoutCheckValues rest
  | _ :: rest => timeoutCheckValues rest

/-- The shape of every `task_wait` event trace, relative to the timeout and
the clamped polling interval: each loop iteration is a status check; only
when the status was ACTIVE is it followed by a timeout check; only when the
timeout check did not fire is that followed by a sleep of the clamped
interval; a fired timeout check (accumulated waited time strictly above the
timeout) ends the trace with result `false` and no further sleep, and a
non-ACTIVE status ends it with result `true` and no timeout check at all. -/
inductive WaitTraceShape (timeout interval : Int) :
    List TaskWaitEvent → Bool → Prop
  | completed (s : String) (h : s ≠ "ACTIVE") :
      WaitTraceShape timeout interval [TaskWaitEvent.statusCheck s] true
  | timedOut (w : Int) (hw : timeout < w) :
      WaitTraceShape timeout interval
        [TaskWaitEvent.statusCheck "ACTIVE", TaskWaitEvent.timeoutCheck w] false
  | step (w : Int) (hw : w ≤ timeout) (rest : List TaskWaitEvent) (r : Bool) :
      WaitTraceShape timeout interval rest r →
      WaitTraceShape timeout interval
        (TaskWaitEvent.statusCheck "ACTIVE" :: TaskWaitEvent.timeoutCheck w
          :: TaskWaitEvent.sleep interval :: rest) r

/-! ## Helper lemmas about the polling loop -/

theorem task_wait_go_zero (statuses : Nat → String) (timeout interval waited : Int)
    (idx : Nat) : task_wait_go statuses timeout interval 0 waited idx = none := rfl

theorem task_wait_go_succ (statuses : Nat → String) (timeout interval : Int)
    (fuel : Nat) (waited : Int) (idx : Nat) :
    task_wait_go statuses timeout interval (fuel + 1) waited idx =
      if statuses idx ≠ "ACTIVE" then
        some (true, [TaskWaitEvent.statusCheck (statuses idx)])
      else if timed_out timeout (waited + interval) then
        some (false, [TaskWaitEvent.statusCheck (statuses idx),
                      TaskWaitEvent.timeoutCheck (waited + interval)])
      else
        match task_wait_go statuses timeout interval fuel (waited + interval) (idx + 1) with
        | none => none
        | some (r, evs) =>
          some (r, TaskWaitEvent.statusCheck (statuses idx)
                     :: TaskWaitEvent.timeoutCheck (waited + interval)
                     :: TaskWaitEvent.sleep interval :: evs) := rfl

/-- With a positive interval the loop always terminates with a result before
the fuel supplied by `task_wait` runs out: the fallback branch of `task_wait`
is unreachable. -/
theorem task_wait_go_isSome (statuses : Nat → String) (timeout interval : Int)
    (hi : 1 ≤ interval) :
    ∀ (fuel : Nat) (waited : Int) (idx : Nat),
      (timeout - waited).toNat < fuel →
      (task_wait_go statuses timeout interval fuel waited idx).isSome := by
  intro fuel
  induction fuel with
  | zero => intro waited idx h; omega
  | succ n ih =>
    intro waited idx h
    rw [task_wait_go_succ]
    by_cases hs : statuses idx ≠ "ACTIVE"
    · rw [if_pos hs]; rfl
    · rw [if_neg hs]
      by_cases hto : timed_out timeout (waited + interval)
      · rw [if_pos hto]; rfl
      · rw [if_neg hto]
        have hlt : (timeout - (waited + interval)).toNat < n := by
          simp only [timed_out, decide_eq_true_eq, not_lt] at hto
          omega
        have hsome := ih (waited + interval) (idx + 1) hlt
        cases hgo : task_wait_go statuses timeout interval n (waited + interval) (idx + 1) with
        | none => rw [hgo] at hsome; simp at hsome
        | some out => cases out with | mk r evs => simp

/-- Every sleep the loop performs has exactly the interval passed to it as
its duration. -/
theorem task_wait_go_sleeps (statuses : Nat → String) (timeout interval : Int) :
    ∀ (fuel : Nat) (waited : Int) (idx : Nat) (r : Bool) (evs : List TaskWaitEvent),
      task_wait_go statuses timeout interval fuel waited idx = some (r, evs) →
      ∀ d ∈ sleepDurations evs, d = interval := by
  intro fuel
  induction fuel with
  | zero => intro waited idx r evs h; exact absurd h (by simp [task_wait_go])
  | succ n ih =>
    intro waited idx r evs h
    rw [task_wait_go_succ] at h
    by_cases hs : statuses idx ≠ "ACTIVE"
    · rw [if_pos hs] at h
      simp only [Option.some.injEq, Prod.mk.injEq] at h
      obtain ⟨-, hevs⟩ := h
      subst hevs
      simp [sleepDurations]
    · rw [if_neg hs] at h
      by_cases hto : timed_out timeout (waited + interval)
      · rw [if_pos hto] at h
        simp only [Option.some.injEq, Prod.mk.injEq] at h
        obtain ⟨-, hevs⟩ := h
        subst hevs
        simp [sleepDurations]
      · rw [if_neg hto] at h
        cases hgo : task_wait_go statuses timeout interval n (waited + interval) (idx + 1) with
        | none => rw [hgo] at h; exact absurd h (by simp)
        | some out =>
          cases out with
          | mk r' evs' =>
            rw [hgo] at h
            simp only [Option.some.injEq, Prod.mk.injEq] at h
            obtain ⟨-, hevs⟩ := h
            subst hevs
            intro d hd
            simp only [sleepDurations] at hd
            rcases List.mem_cons.mp hd with hdi | hd'
            · exact hdi
            · exact ih (waited + interval) (idx + 1) r' evs' hgo d hd'

/-- Every accumulated waited time the loop tests against the timeout is the
starting waited time plus a positive multiple of the interval: waited time
is accumulated in steps of exactly the interval. -/
theorem task_wait_go_timeoutChecks (statuses : Nat → String) (timeout interval : Int) :
    ∀ (fuel : Nat) (waited : Int) (idx : Nat) (r : Bool) (evs : List TaskWaitEvent),
      task_wait_go statuses timeout interval fuel waited idx = some (r, evs) →
      ∀ w ∈ timeoutCheckValues evs, ∃ k : Nat, w = waited + (k + 1) * interval := by
  intro fuel
  induction fuel with
  | zero => intro waited idx r evs h; exact absurd h (by simp [task_wait_go])
  | succ n ih =>
    intro waited idx r evs h
    rw [task_wait_go_succ] at h
    by_cases hs : statuses idx ≠ "ACTIVE"
    · rw [if_pos hs] at h
      simp only [Option.some.injEq, Prod.mk.injEq] at h
      obtain ⟨-, hevs⟩ := h
      subst hevs
      simp [timeoutCheckValues]
    · rw [if_neg hs] at h
      by_cases hto : timed_out timeout (waited + interval)
      · rw [if_pos hto] at h
        simp only [Option.some.injEq, Prod.mk.injEq] at h
        obtain ⟨-, hevs⟩ := h
        subst hevs
        intro w hw
        simp only [timeoutCheckValues, List.mem_singleton] at hw
        exact ⟨0, by omega⟩
      · rw [if_neg hto] at h
        cases hgo : task_wait_go statuses timeout interval n (waited + interval) (idx + 1) with
        | none => rw [hgo] at h; exact absurd h (by simp)
        | some out =>
          cases out with
          | mk r' evs' =>
            rw [hgo] at h
            simp only [Option.some.injEq, Prod.mk.injEq] at h
            obtain ⟨-, hevs⟩ := h
            subst hevs
            intro w hw
            simp only [timeoutCheckValues, List.mem_cons] at hw
            rcases hw with hwi | hw'
            · exact ⟨0, by omega⟩
            · obtain ⟨k, hk⟩ := ih (waited + interval) (idx + 1) r' evs' hgo w hw'
              refine ⟨k + 1, ?_⟩
              push_cast
              linarith [hk]

/-- Every trace the loop can produce has the `WaitTraceShape` form. -/
theorem task_wait_go_shape (statuses : Nat → String) (timeout interval : Int) :
    ∀ (fuel : Nat) (waited : Int) (idx : Nat) (r : Bool) (evs : List TaskWaitEvent),
      task_wait_go statuses timeout interval fuel waited idx = some (r, evs) →
      WaitTraceShape timeout interval evs r := by
  intro fuel
  induction fuel with
  | zero => intro waited idx r evs h; exact absurd h (by simp [task_wait_go])
  | succ n ih =>
    intro waited idx r evs h
    rw [task_wait_go_succ] at h
    by_cases hs : statuses idx ≠ "ACTIVE"
    · rw [if_pos hs] at h
      simp only [Option.some.injEq, Prod.mk.injEq] at h
      obtain ⟨hr, hevs⟩ := h
      subst hr; subst hevs
      exact WaitTraceShape.completed (statuses idx) hs
    · push_neg at hs
      rw [if_neg (by simp [hs])] at h
      by_cases hto : timed_out timeout (waited + interval)
      · rw [if_pos hto] at h
        simp only [Option.some.injEq, Prod.mk.injEq] at h
        obtain ⟨hr, hevs⟩ := h
        subst hr; subst hevs
        rw [hs]
        exact WaitTraceShape.timedOut (waited + interval)
          (by simpa [timed_out] using hto)
      · rw [if_neg hto] at h
        cases hgo : task_wait_go statuses timeout interval n (waited + interval) (idx + 1) with
        | none => rw [hgo] at h; exact absurd h (by simp)
        | some out =>
          cases out with
          | mk r' evs' =>
            rw [hgo] at h
            simp only [Option.some.injEq, Prod.mk.injEq] at h
            obtain ⟨hr, hevs⟩ := h
            subst hr; subst hevs
            rw [hs]
            exact WaitTraceShape.step (waited + interval)
              (by simpa [timed_out] using hto) evs' r'
              (ih (waited + interval) (idx + 1) r' evs' hgo)

/-! ## Claim theorems -/

/-- Claim C1: for every token response returned by the client-credentials
grant, `_get_token_response` issues exactly the single grant request (and no
further requests); if the response carries any other tokens it raises an
error whose message names the offending scope string, and otherwise it
returns the response unchanged. -/
theorem client_credentials_single_access_token (auth : ClientCredentialsAuthorizer) :
    auth.get_token_response.2 = [auth.scopes] ∧
    (if (auth.confidential_client auth.scopes).other_tokens ≠ [] then
        ∃ pre post, auth.get_token_response.1 =
          Except.error (pre ++ auth.scopes ++ post)
      else
        auth.get_token_response.1 =
          Except.ok (auth.confidential_client auth.scopes)) := by
  by_cases hmulti : (auth.confidential_client auth.scopes).other_tokens ≠ []
  · refine ⟨?_, ?_⟩
    · simp only [ClientCredentialsAuthorizer.get_token_response, if_pos hmulti]
    · rw [if_pos hmulti]
      refine ⟨"ClientCredentialsAuthorizer created with scopes ",
        " got back multiple Access Tokens. Make sure the set of scopes are only for one resource server.",
        ?_⟩
      simp only [ClientCredentialsAuthorizer.get_token_response, if_pos hmulti]
  · refine ⟨?_, ?_⟩
    · simp only [ClientCredentialsAuthorizer.get_token_response, if_neg hmulti]
    · rw [if_neg hmulti]
      simp only [ClientCredentialsAuthorizer.get_token_response, if_neg hmulti]

/-- Claim C2, counterexample: the claim that
`task_wait(timeout=5, polling_interval=10)` on a task that stays ACTIVE
performs exactly one status check before returning the timed-out result is
false on the code: the strict timeout comparison lets the loop run a second
iteration. -/
theorem task_wait_single_check_refuted :
    ¬ ∃ evs : List TaskWaitEvent,
        task_wait (fun _ => "ACTIVE") 5 10 = Except.ok (false, evs) ∧
        countStatusChecks evs = 1 := by
  rintro ⟨evs, h1, h2⟩
  have h : task_wait (fun _ => "ACTIVE") 5 10 =
      Except.ok (false,
        [TaskWaitEvent.statusCheck "ACTIVE", TaskWaitEvent.timeoutCheck 5,
         TaskWaitEvent.sleep 5, TaskWaitEvent.statusCheck "ACTIVE",
         TaskWaitEvent.timeoutCheck 10]) := rfl
  rw [h] at h1
  simp only [Except.ok.injEq, Prod.mk.injEq, true_and] at h1
  subst h1
  simp [countStatusChecks] at h2

/-- Claim C2 (amended): `task_wait(timeout=5, polling_interval=10)` on a task
whose status stays ACTIVE clamps the interval to 5, performs exactly two
status checks with one 5-second sleep between them, and returns the
timed-out result (False) without sleeping 10 seconds. -/
theorem task_wait_timeout_five_interval_ten :
    task_wait (fun _ => "ACTIVE") 5 10 =
      Except.ok (false,
        [TaskWaitEvent.statusCheck "ACTIVE", TaskWaitEvent.timeoutCheck 5,
         TaskWaitEvent.sleep 5, TaskWaitEvent.statusCheck "ACTIVE",
         TaskWaitEvent.timeoutCheck 10]) ∧
    countStatusChecks
        [TaskWaitEvent.statusCheck "ACTIVE", TaskWaitEvent.timeoutCheck 5,
         TaskWaitEvent.sleep 5, TaskWaitEvent.statusCheck "ACTIVE",
         TaskWaitEvent.timeoutCheck 10] = 2 ∧
    sleepDurations
        [TaskWaitEvent.statusCheck "ACTIVE", TaskWaitEvent.timeoutCheck 5,
         TaskWaitEvent.sleep 5, TaskWaitEvent.statusCheck "ACTIVE",
         TaskWaitEvent.timeoutCheck 10] = [5] :=
  ⟨rfl, rfl, rfl⟩

/-- Claim C3: `task_wait` raises a `ValueError` when `timeout < 1` (and,
with a valid timeout, when `polling_interval < 1`), in both cases uniformly
in the status oracle — that is, before any status request is issued — and
raises no validation error when both bounds are at least 1. -/
theorem task_wait_validation (timeout polling_interval : Int) :
    (timeout < 1 → ∀ statuses : Nat → String,
        task_wait statuses timeout polling_interval =
          Except.error TaskWaitError.timeoutTooSmall) ∧
    (1 ≤ timeout → polling_interval < 1 → ∀ statuses : Nat → String,
        task_wait statuses timeout polling_interval =
          Except.error TaskWaitError.pollingIntervalTooSmall) ∧
    (1 ≤ timeout → 1 ≤ polling_interval → ∀ statuses : Nat → String,
        ∃ out, task_wait statuses timeout polling_interval = Except.ok out) := by
  refine ⟨fun ht statuses => ?_, fun ht hp statuses => ?_, fun ht hp statuses => ?_⟩
  · simp only [task_wait]
    rw [if_pos ht]
  · simp only [task_wait]
    rw [if_neg (by omega), if_pos hp]
  · simp only [task_wait]
    rw [if_neg (by omega), if_neg (by omega)]
    have hsome := task_wait_go_isSome statuses timeout (min timeout polling_interval)
      (le_min ht hp) (timeout.toNat + 1) 0 0 (by omega)
    cases hgo : task_wait_go statuses timeout (min timeout polling_interval)
        (timeout.toNat + 1) 0 0 with
    | none => rw [hgo] at hsome; simp at hsome
    | some out => exact ⟨out, rfl⟩

/-- Claim C3, witness. -/
theorem task_wait_validation_witness :
    task_wait (fun _ => "ACTIVE") 0 10 =
      Except.error TaskWaitError.timeoutTooSmall ∧
    task_wait (fun _ => "ACTIVE") 10 0 =
      Except.error TaskWaitError.pollingIntervalTooSmall ∧
    ∃ out, task_wait (fun _ => "ACTIVE") 5 5 = Except.ok out :=
  ⟨(task_wait_validation 0 10).1 (by decide) (fun _ => "ACTIVE"),
   (task_wait_validation 10 0).2.1 (by decide) (by decide) (fun _ => "ACTIVE"),
   (task_wait_validation 5 5).2.2 (by decide) (by decide) (fun _ => "ACTIVE")⟩

/-- Claim C4: for every valid call, every sleep duration in the trace equals
`min timeout polling_interval` (hence never exceeds the timeout), and every
accumulated waited time tested against the timeout is a positive multiple of
`min timeout polling_interval`: the clamped interval is used both for every
sleep and for accumulating waited time. -/
theorem task_wait_interval_clamped (statuses : Nat → String)
    (timeout polling_interval : Int) (ht : 1 ≤ timeout) (hp : 1 ≤ polling_interval)
    (r : Bool) (evs : List TaskWaitEvent)
    (h : task_wait statuses timeout polling_interval = Except.ok (r, evs)) :
    (∀ d ∈ sleepDurations evs, d = min timeout polling_interval ∧ d ≤ timeout) ∧
    (∀ w ∈ timeoutCheckValues evs, ∃ k : Nat,
        w = (k + 1) * min timeout polling_interval) := by
  simp only [task_wait] at h
  rw [if_neg (by omega), if_neg (by omega)] at h
  cases hgo : task_wait_go statuses timeout (min timeout polling_interval)
      (timeout.toNat + 1) 0 0 with
  | none =>
    rw [hgo] at h
    simp only [Except.ok.injEq, Prod.mk.injEq] at h
    obtain ⟨-, hevs⟩ := h
    subst hevs
    simp [sleepDurations, timeoutCheckValues]
  | some out =>
    cases out with
    | mk r' evs' =>
      rw [hgo] at h
      simp only [Except.ok.injEq, Prod.mk.injEq] at h
      obtain ⟨hr, hevs⟩ := h
      subst hr; subst hevs
      refine ⟨fun d hd => ?_, fun w hw => ?_⟩
      · have hd' := task_wait_go_sleeps statuses timeout (min timeout polling_interval)
          (timeout.toNat + 1) 0 0 r' evs' hgo d hd
        exact ⟨hd', hd' ▸ min_le_left _ _⟩
      · obtain ⟨k, hk⟩ := task_wait_go_timeoutChecks statuses timeout
          (min timeout polling_interval) (timeout.toNat + 1) 0 0 r' evs' hgo w hw
        exact ⟨k, by omega⟩

/-- Claim C4, witness. -/
theorem task_wait_interval_clamped_witness :
    (5 : Int) = min 5 10 ∧ (5 : Int) ≤ 5 :=
  (task_wait_interval_clamped (fun _ => "ACTIVE") 5 10 (by decide) (by decide) false
    [TaskWaitEvent.statusCheck "ACTIVE", TaskWaitEvent.timeoutCheck 5,
     TaskWaitEvent.sleep 5, TaskWaitEvent.statusCheck "ACTIVE",
     TaskWaitEvent.timeoutCheck 10] rfl).1 5 (by simp [sleepDurations])

/-- Claim C5: every trace of a valid `task_wait` call has the
`WaitTraceShape` form: in each iteration the status check precedes the
timeout check, which precedes any sleep, and a fired timeout check ends the
run with the timed-out result and no further sleep. -/
theorem task_wait_check_ordering (statuses : Nat → String)
    (timeout polling_interval : Int) (ht : 1 ≤ timeout) (hp : 1 ≤ polling_interval)
    (r : Bool) (evs : List TaskWaitEvent)
    (h : task_wait statuses timeout polling_interval = Except.ok (r, evs)) :
    WaitTraceShape timeout (min timeout polling_interval) evs r := by
  simp only [task_wait] at h
  rw [if_neg (by omega), if_neg (by omega)] at h
  have hsome := task_wait_go_isSome statuses timeout (min timeout polling_interval)
    (le_min ht hp) (timeout.toNat + 1) 0 0 (by omega)
  cases hgo : task_wait_go statuses timeout (min timeout polling_interval)
      (timeout.toNat + 1) 0 0 with
  | none => rw [hgo] at hsome; simp at hsome
  | some out =>
    cases out with
    | mk r' evs' =>
      rw [hgo] at h
      simp only [Except.ok.injEq, Prod.mk.injEq] at h
      obtain ⟨hr, hevs⟩ := h
      subst hr; subst hevs
      exact task_wait_go_shape statuses timeout (min timeout polling_interval)
        (timeout.toNat + 1) 0 0 r' evs' hgo

/-- Claim C5, witness. -/
theorem task_wait_check_ordering_witness :
    WaitTraceShape 5 (min 5 10)
      [TaskWaitEvent.statusCheck "ACTIVE", TaskWaitEvent.timeoutCheck 5,
       TaskWaitEvent.sleep 5, TaskWaitEvent.statusCheck "ACTIVE",
       TaskWaitEvent.timeoutCheck 10] false :=
  task_wait_check_ordering (fun _ => "ACTIVE") 5 10 (by decide) (by decide) false
    [TaskWaitEvent.statusCheck "ACTIVE", TaskWaitEvent.timeoutCheck 5,
     TaskWaitEvent.sleep 5, TaskWaitEvent.statusCheck "ACTIVE",
     TaskWaitEvent.timeoutCheck 10] rfl

/-- Claim C6: for every valid call, if the first fetched status is not
ACTIVE then `task_wait` returns True immediately, with exactly one status
request and no sleep and no timeout check. -/
theorem task_wait_early_completion (statuses : Nat → String)
    (timeout polling_interval : Int) (ht : 1 ≤ timeout) (hp : 1 ≤ polling_interval)
    (h0 : statuses 0 ≠ "ACTIVE") :
    task_wait statuses timeout polling_interval =
      Except.ok (true, [TaskWaitEvent.statusCheck (statuses 0)]) := by
  simp only [task_wait]
  rw [if_neg (by omega), if_neg (by omega), task_wait_go_succ, if_pos h0]

/-- Claim C6, witness. -/
theorem task_wait_early_completion_witness :
    task_wait (fun _ => "SUCCEEDED") 7 3 =
      Except.ok (true, [TaskWaitEvent.statusCheck "SUCCEEDED"]) :=
  task_wait_early_completion (fun _ => "SUCCEEDED") 7 3 (by decide) (by decide)
    (by decide)

/-- Claim C7: with equal timeout and polling interval and a task that stays
ACTIVE, the strict timeout comparison together with the clamp makes the loop
run exactly one extra check cycle: two status checks and one sleep of the
full interval, then the timed-out result (False). -/
theorem task_wait_equal_bounds (statuses : Nat → String) (t : Int)
    (ht : 1 ≤ t) (hactive : ∀ i, statuses i = "ACTIVE") :
    task_wait statuses t t =
      Except.ok (false,
        [TaskWaitEvent.statusCheck "ACTIVE", TaskWaitEvent.timeoutCheck t,
         TaskWaitEvent.sleep t, TaskWaitEvent.statusCheck "ACTIVE",
         TaskWaitEvent.timeoutCheck (t + t)]) ∧
    countStatusChecks
        [TaskWaitEvent.statusCheck "ACTIVE", TaskWaitEvent.timeoutCheck t,
         TaskWaitEvent.sleep t, TaskWaitEvent.statusCheck "ACTIVE",
         TaskWaitEvent.timeoutCheck (t + t)] = 2 ∧
    sleepDurations
        [TaskWaitEvent.statusCheck "ACTIVE", TaskWaitEvent.timeoutCheck t,
         TaskWaitEvent.sleep t, TaskWaitEvent.statusCheck "ACTIVE",
         TaskWaitEvent.timeoutCheck (t + t)] = [t] := by
  refine ⟨?_, by simp [countStatusChecks], by simp [sleepDurations]⟩
  simp only [task_wait]
  rw [if_neg (by omega), if_neg (by omega), min_self]
  obtain ⟨k, hk⟩ : ∃ k, t.toNat + 1 = k + 1 + 1 := ⟨t.toNat - 1, by omega⟩
  rw [hk, task_wait_go_succ, hactive 0]
  rw [if_neg (by simp)]
  rw [if_neg (by simp only [timed_out, gt_iff_lt, decide_eq_true_eq, not_lt]; omega)]
  rw [task_wait_go_succ, hactive 1]
  rw [if_neg (by simp)]
  rw [if_pos (by simp only [timed_out, gt_iff_lt, decide_eq_true_eq]; omega)]
  norm_num

/-- Claim C7, witness. -/
theorem task_wait_equal_bounds_witness :
    task_wait (fun _ => "ACTIVE") 5 5 =
      Except.ok (false,
        [TaskWaitEvent.statusCheck "ACTIVE", TaskWaitEvent.timeoutCheck 5,
         TaskWaitEvent.sleep 5, TaskWaitEvent.statusCheck "ACTIVE",
         TaskWaitEvent.timeoutCheck (5 + 5)]) ∧
    countStatusChecks
        [TaskWaitEvent.statusCheck "ACTIVE", TaskWaitEvent.timeoutCheck 5,
         TaskWaitEvent.sleep 5, TaskWaitEvent.statusCheck "ACTIVE",
         TaskWaitEvent.timeoutCheck (5 + 5)] = 2 ∧
    sleepDurations
        [TaskWaitEvent.statusCheck "ACTIVE", TaskWaitEvent.timeoutCheck 5,
         TaskWaitEvent.sleep 5, TaskWaitEvent.statusCheck "ACTIVE",
         TaskWaitEvent.timeoutCheck (5 + 5)] = [5] :=
  task_wait_equal_bounds (fun _ => "ACTIVE") 5 (by decide) (fun _ => rfl)

/-- Claim C8: `endpoint_search` always constructs the paginated sequence
with `max_results_per_call = 100` and `max_total_results = 1000`
(`num_results` defaulting to 25), so `num_results = 1200` fails at
construction with a pagination-overrun error and no request issued, while
the default succeeds. -/
theorem endpoint_search_pagination_cap :
    (∀ n : Option Int, endpoint_search n =
        PaginatedResource.construct n 100 (some 1000)) ∧
    endpoint_search (some 1200) =
      (Except.error TransferError.paginationOverrun, []) ∧
    endpoint_search (some 25) =
      (Except.ok ⟨some 25, 100, some 1000⟩, []) :=
  ⟨fun _ => rfl, rfl, rfl⟩

/-- Claim C9: `task_wait` returns True for every first fetched status other
than exactly ACTIVE — including failure statuses; the completed result does
not distinguish success from failure. -/
theorem task_wait_true_for_any_nonactive (s : String) (hs : s ≠ "ACTIVE")
    (statuses : Nat → String) (timeout polling_interval : Int)
    (ht : 1 ≤ timeout) (hp : 1 ≤ polling_interval) (h0 : statuses 0 = s) :
    task_wait statuses timeout polling_interval =
      Except.ok (true, [TaskWaitEvent.statusCheck s]) := by
  simp only [task_wait]
  rw [if_neg (by omega), if_neg (by omega), task_wait_go_succ, h0, if_pos hs]

/-- Claim C9, witness: a FAILED task counts as completed. -/
theorem task_wait_true_for_any_nonactive_witness :
    task_wait (fun _ => "FAILED") 1 1 =
      Except.ok (true, [TaskWaitEvent.statusCheck "FAILED"]) :=
  task_wait_true_for_any_nonactive "FAILED" (by decide) (fun _ => "FAILED") 1 1
    (by decide) (by decide) rfl

/-- Claim C10: an explicitly supplied authorizer is passed through to the
base client unchanged, whatever the deprecated config token holds; the
config token determines the authorizer only when none is supplied. -/
theorem transfer_client_authorizer_passthrough :
    (∀ (a : GlobusAuthorizer) (tok : Option String),
        transfer_client_init (some a) tok = some a) ∧
    (∀ tok : String, transfer_client_init none (some tok) =
        some (GlobusAuthorizer.accessTokenAuthorizer tok)) ∧
    transfer_client_init none none = none :=
  ⟨fun a tok => by cases tok <;> rfl, fun tok => rfl, rfl⟩

end GlobusSDK
